import Mathlib

/-!
Shallow embedding of the weather-analysis program (`src/app.py`) and proofs of
the specification claims about it.

Conventions of the embedding:

* A pandas data frame of readings is a `List Row`, one `Row` per data-frame
  row, in frame order.  Column access is field access; adding a column is a
  functional row update.
* Temperatures are exact rationals (`ℚ`).  A float NaN produced by pandas
  (incomplete rolling window, `std` of a single sample) is modelled as
  `Option.none`; pandas comparisons against NaN are `False`, which the
  embedding reproduces by pattern matching (`none` branches give `false`).
* The source stores the rolling standard deviation (`moving_std` column) and
  the seasonal standard deviation (`std` column).  An exact real square root
  is not computable, so the embedding stores the *variance* (the square of the
  source's column, field `moving_var` resp. `var`), which is an exact rational,
  and every statement about the standard deviation itself is phrased with
  `Real.sqrt` applied to the stored variance.  `x ↦ Real.sqrt x` is a strictly
  monotone bijection from nonnegative variances to nonnegative standard
  deviations, so definedness (`none` vs `some`) and the order comparisons the
  program performs transfer exactly; lemmas `detect_anomalies aligned with
  `anomalyCond` and `evaluate_live` aligned with `inRangeCond` below prove the
  transfer rather than assuming it.
* `rolling(window=w)` of pandas leaves the first `w-1` positions NaN
  (`min_periods` defaults to the window size) and computes each defined entry
  from the complete window of `w` trailing values; `.std()` additionally is
  NaN on single-sample windows (`ddof=1`).
-/

namespace WeatherApp

/-- One row of the historical data frame: the reading columns from the CSV
plus the derived columns that `calculate_moving_average` and
`detect_anomalies` assign (`none` / `false` before they run). -/
structure Row where
  city : String
  timestamp : ℤ
  season : String
  temperature : ℚ
  moving_avg : Option ℚ := none
  moving_var : Option ℚ := none
  anomaly : Bool := false
deriving DecidableEq, Repr

/-- Arithmetic mean of a list of rationals (`sum / len`, pandas `mean`). -/
def listMean (l : List ℚ) : ℚ :=
  l.sum / l.length

/-- Bessel-corrected sample variance, divisor `n - 1` (the square of pandas
`std` with its default `ddof=1`). -/
def besselVar (l : List ℚ) : ℚ :=
  (l.map (fun x => (x - listMean l) ^ 2)).sum / ((l.length : ℚ) - 1)

/-- The trailing window of size `w` ending at position `i`: the elements at
positions `i+1-w .. i`.  Meaningful when `w ≤ i + 1` (complete window). -/
def windowSlice (temps : List ℚ) (w i : ℕ) : List ℚ :=
  (temps.take (i + 1)).drop (i + 1 - w)

/-- `temps.rolling(window=w).mean()` at position `i`: NaN (`none`) while the
window is incomplete, else the mean of the `w` trailing values. -/
def rollingMean (temps : List ℚ) (w i : ℕ) : Option ℚ :=
  if w ≤ i + 1 then some (listMean (windowSlice temps w i)) else none

/-- The square of `temps.rolling(window=w).std()` at position `i`: NaN
(`none`) while the window is incomplete and on single-sample windows
(`ddof=1`), else the Bessel-corrected sample variance of the `w` trailing
values. -/
def rollingVar (temps : List ℚ) (w i : ℕ) : Option ℚ :=
  if w ≤ i + 1 ∧ 2 ≤ w then some (besselVar (windowSlice temps w i)) else none

/-- Helper: walk the rows with their position, assigning the rolling columns
computed from the frame's temperature column. -/
def attachBaseline (temps : List ℚ) (w : ℕ) : ℕ → List Row → List Row
  | _, [] => []
  | i, r :: rs =>
      { r with moving_avg := rollingMean temps w i,
               moving_var := rollingVar temps w i } :: attachBaseline temps w (i + 1) rs

/-- `calculate_moving_average` (src/app.py lines 12–15): assigns
`data['moving_avg']` and `data['moving_std']` from
`data['temperature'].rolling(window=window)`; the frame is returned with the
two columns set (the variance `moving_var` standing for the square of
`moving_std`, see the file header). -/
def calculate_moving_average (data : List Row) (window : ℕ := 30) : List Row :=
  attachBaseline (data.map (fun r => r.temperature)) window 0 data

/-- The literal anomaly condition of src/app.py lines 18–21 on defined
(non-NaN) values: `temperature > moving_avg + 2 * moving_std` or
`temperature < moving_avg - 2 * moving_std`, with the standard deviation `sd`
a real number. -/
def anomalyCond (t m sd : ℝ) : Prop :=
  t > m + 2 * sd ∨ t < m - 2 * sd

/-- Decidable form of the row-level anomaly test: NaN comparisons are `False`
in pandas, so an undefined mean or std gives `false`; on defined values the
source's comparison against `mean ± 2·√var` is evaluated through its
square-free equivalent `(t - m)² > 4·var` (lemma `anomalyTest_eq_anomalyCond`
proves the equivalence with `anomalyCond`). -/
def anomalyTest (t : ℚ) (avg varOpt : Option ℚ) : Bool :=
  match avg, varOpt with
  | some m, some v => decide ((t - m) ^ 2 > 4 * v)
  | _, _ => false

/-- `detect_anomalies` (src/app.py lines 17–22): assigns the Boolean
`data['anomaly']` column row-wise from `temperature`, `moving_avg`,
`moving_std`. -/
def detect_anomalies (data : List Row) : List Row :=
  data.map (fun r => { r with anomaly := anomalyTest r.temperature r.moving_avg r.moving_var })

/-- One row of `seasonal_statistics`' result frame: the group key and the
aggregated columns `mean` and `std` (stored as the variance `var`, `none` for
the NaN that pandas `std` yields on a single-member group). -/
structure SeasonalStat where
  city : String
  season : String
  mean : ℚ
  var : Option ℚ
deriving DecidableEq, Repr

/-- The temperature column of the `(city, season)` group of the frame. -/
def groupTemps (data : List Row) (c s : String) : List ℚ :=
  (data.filter (fun r => decide (r.city = c ∧ r.season = s))).map (fun r => r.temperature)

/-- `seasonal_statistics` (src/app.py lines 24–25):
`data.groupby(['city','season'])['temperature'].agg(['mean','std']).reset_index()`
— one output row per distinct `(city, season)` pair of the whole frame, with
the group's mean and sample standard deviation (stored as its square `var`;
`none` for the single-member NaN).  pandas orders the groups by sorted key;
the embedding keeps first-occurrence order, which the claims (about the key
*set* and the per-key values) do not distinguish.  `mkSeasonalStat` builds the
output row of one group. -/
def mkSeasonalStat (data : List Row) (p : String × String) : SeasonalStat :=
  { city := p.1
    season := p.2
    mean := listMean (groupTemps data p.1 p.2)
    var := if 2 ≤ (groupTemps data p.1 p.2).length
           then some (besselVar (groupTemps data p.1 p.2)) else none }

def seasonal_statistics (data : List Row) : List SeasonalStat :=
  ((data.map (fun r => (r.city, r.season))).dedup).map (mkSeasonalStat data)

/-- The literal in-range condition of src/app.py lines 112–115 on defined
values: `lower_bound <= reading <= upper_bound` with
`lower_bound = mean - 2 * std`, `upper_bound = mean + 2 * std`. -/
def inRangeCond (t m sd : ℝ) : Prop :=
  m - 2 * sd ≤ t ∧ t ≤ m + 2 * sd

/-- The live-reading range check of src/app.py lines 112–118, as a function of
the reading and the selected seasonal stat's mean and variance: when the
stat's std is NaN (`none`) both chained comparisons are `False` in Python, so
the result is `false`; on defined values the comparison against
`mean ± 2·√var` is evaluated through its square-free equivalent
`(t - m)² ≤ 4·var` (lemma `evaluate_live_eq_inRangeCond` proves the
equivalence with `inRangeCond`). -/
def evaluate_live (t m : ℚ) (varOpt : Option ℚ) : Bool :=
  match varOpt with
  | some v => decide ((t - m) ^ 2 ≤ 4 * v)
  | none => false

/-- What `fetch_temperature_sync` (src/app.py lines 61–68) can hand back to
`main`: a numeric temperature (HTTP 200), the structured `{code, message}`
dictionary (HTTP 401), or Python `None` (any other status). -/
inductive FetchResult where
  | temp (t : ℚ)
  | errorObj (code : ℕ) (message : String)
  | nothing
deriving DecidableEq, Repr

/-- The `message` field of the 401 dictionary of src/app.py line 67. -/
def invalidKeyMessage : String :=
  "Invalid API key. Please see https://openweathermap.org/faq#error401 for more info."

/-- `fetch_temperature_sync` (src/app.py lines 61–68) as a function of the
HTTP status and the temperature the 200-response body would carry. -/
def fetch_temperature_sync (status : ℕ) (bodyTemp : ℚ) : FetchResult :=
  if status = 200 then FetchResult.temp bodyTemp
  else if status = 401 then FetchResult.errorObj 401 invalidKeyMessage
  else FetchResult.nothing

/-- Outcome of `main`'s current-temperature block for one fetched value. -/
inductive Assessment where
  | inRange
  | outOfRange
  | typeError
deriving DecidableEq, Repr

/-- `main`'s monitoring step (src/app.py lines 103–120) for a given fetch
result and selected seasonal stat: the guard is `if current_temp is not None`,
so only Python `None` takes the no-assessment branch; a numeric temperature is
range-checked; the 401 dictionary also passes the guard and reaches the
chained comparison `lower_bound <= current_temp <= upper_bound`, where
comparing a `dict` with a `float` raises `TypeError`. -/
def monitorStep (res : FetchResult) (m : ℚ) (varOpt : Option ℚ) : Option Assessment :=
  match res with
  | FetchResult.nothing => none
  | FetchResult.temp t =>
      some (if evaluate_live t m varOpt then Assessment.inRange else Assessment.outOfRange)
  | FetchResult.errorObj _ _ => some Assessment.typeError

/-- How `main`'s seasonal-stat access can end: plain element access
`.values[0]` on an empty selection raises the untyped `IndexError`;
`missingSeasonalStat` is the typed error §4.4 of the spec asks for (the code
never produces it). -/
inductive LookupError where
  | indexError
  | missingSeasonalStat
deriving DecidableEq, Repr

/-- `main`'s seasonal-stat selection (src/app.py lines 108–110):
`season_stats[(city == c) & (season == s)]` filtered, then `.values[0]` on the
selection — the first matching row if any, else `IndexError`. -/
def lookupSeasonStat (stats : List SeasonalStat) (c s : String) :
    Except LookupError SeasonalStat :=
  match (stats.filter (fun st => decide (st.city = c ∧ st.season = s))).head? with
  | some st => Except.ok st
  | none => Except.error LookupError.indexError

/-- `data[data['city'] == city]` (src/app.py line 79): the selected city's
slice of the frame, frame order preserved. -/
def selectCity (data : List Row) (c : String) : List Row :=
  data.filter (fun r => decide (r.city = c))

/-- `city_data['season'].iloc[0]` (src/app.py line 107): the season of the
first row of the selected city's slice. -/
def currentSeason (data : List Row) (c : String) : Option String :=
  (selectCity data c).head?.map (fun r => r.season)

/-! ### Positional description of the frame operations -/

lemma attachBaseline_length (temps : List ℚ) (w : ℕ) :
    ∀ (i : ℕ) (l : List Row), (attachBaseline temps w i l).length = l.length
  | _, [] => rfl
  | i, _ :: rs => by
      simp [attachBaseline, attachBaseline_length temps w (i + 1) rs]

lemma attachBaseline_getElem? (temps : List ℚ) (w : ℕ) :
    ∀ (i j : ℕ) (l : List Row),
      (attachBaseline temps w i l)[j]? =
        (l[j]?).map (fun r =>
          { r with moving_avg := rollingMean temps w (i + j),
                   moving_var := rollingVar temps w (i + j) })
  | _, _, [] => by simp [attachBaseline]
  | _, 0, r :: rs => by simp [attachBaseline]
  | i, j + 1, r :: rs => by
      have ih := attachBaseline_getElem? temps w (i + 1) j rs
      have harith : i + 1 + j = i + (j + 1) := by omega
      simp only [attachBaseline, List.getElem?_cons_succ, ih, harith]

lemma calculate_moving_average_length (data : List Row) (w : ℕ) :
    (calculate_moving_average data w).length = data.length := by
  simp [calculate_moving_average, attachBaseline_length]

lemma calculate_moving_average_getElem? (data : List Row) (w i : ℕ) :
    (calculate_moving_average data w)[i]? =
      (data[i]?).map (fun r =>
        { r with
            moving_avg := rollingMean (data.map (fun r => r.temperature)) w i,
            moving_var := rollingVar (data.map (fun r => r.temperature)) w i }) := by
  simpa using attachBaseline_getElem? (data.map (fun r => r.temperature)) w 0 i data

lemma detect_anomalies_getElem? (data : List Row) (i : ℕ) :
    (detect_anomalies data)[i]? =
      (data[i]?).map (fun r =>
        { r with anomaly := anomalyTest r.temperature r.moving_avg r.moving_var }) := by
  simp [detect_anomalies, List.getElem?_map]

lemma calculate_moving_average_map_temperature (data : List Row) (w : ℕ) :
    (calculate_moving_average data w).map (fun r => r.temperature) =
      data.map (fun r => r.temperature) := by
  apply List.ext_getElem?
  intro n
  simp only [List.getElem?_map, calculate_moving_average_getElem?]
  cases data[n]? <;> rfl

/-! ### Facts about the statistics -/

lemma besselVar_nonneg (l : List ℚ) : 0 ≤ besselVar l := by
  rcases l with _ | ⟨x, xs⟩
  · simp [besselVar, listMean]
  · apply div_nonneg
    · apply List.sum_nonneg
      intro y hy
      simp only [List.mem_map] at hy
      obtain ⟨z, _, rfl⟩ := hy
      positivity
    · have h1 : (1 : ℚ) ≤ ((x :: xs).length : ℚ) := by
        have : 1 ≤ (x :: xs).length := by simp
        exact_mod_cast this
      linarith

lemma rollingVar_nonneg (temps : List ℚ) (w i : ℕ) (v : ℚ)
    (h : rollingVar temps w i = some v) : 0 ≤ v := by
  unfold rollingVar at h
  split at h
  · injection h with h
    exact h ▸ besselVar_nonneg _
  · exact absurd h (by simp)

lemma anomalyTest_none_right (t : ℚ) (a : Option ℚ) :
    anomalyTest t a none = false := by
  cases a <;> rfl

lemma anomalyTest_none_left (t : ℚ) (b : Option ℚ) :
    anomalyTest t none b = false := by
  cases b <;> rfl

/-- The square-free test the embedding evaluates agrees with the source's
comparison against `mean ± 2·std`, `std = √var`, on defined values. -/
lemma anomalyTest_iff_anomalyCond (t m v : ℚ) (hv : 0 ≤ v) :
    (anomalyTest t (some m) (some v) = true ↔
      anomalyCond (t : ℝ) (m : ℝ) (Real.sqrt (v : ℝ))) := by
  have hv' : (0 : ℝ) ≤ (v : ℝ) := by exact_mod_cast hv
  have hs : (0 : ℝ) ≤ Real.sqrt (v : ℝ) := Real.sqrt_nonneg _
  have hs2 : Real.sqrt (v : ℝ) ^ 2 = (v : ℝ) := Real.sq_sqrt hv'
  simp only [anomalyTest, anomalyCond, decide_eq_true_eq]
  constructor
  · intro h
    have h' : ((t : ℝ) - (m : ℝ)) ^ 2 > 4 * (v : ℝ) := by exact_mod_cast h
    by_cases hc : (m : ℝ) ≤ (t : ℝ)
    · left
      nlinarith
    · push_neg at hc
      right
      nlinarith
  · intro h
    have h' : ((t : ℝ) - (m : ℝ)) ^ 2 > 4 * (v : ℝ) := by
      rcases h with h | h
      · nlinarith
      · nlinarith
    exact_mod_cast h'

/-- The square-free test the embedding evaluates agrees with the source's
chained comparison `mean - 2·std ≤ t ≤ mean + 2·std`, `std = √var`, on
defined values. -/
lemma evaluate_live_iff_inRangeCond (t m v : ℚ) (hv : 0 ≤ v) :
    (evaluate_live t m (some v) = true ↔
      inRangeCond (t : ℝ) (m : ℝ) (Real.sqrt (v : ℝ))) := by
  have hv' : (0 : ℝ) ≤ (v : ℝ) := by exact_mod_cast hv
  have hs : (0 : ℝ) ≤ Real.sqrt (v : ℝ) := Real.sqrt_nonneg _
  have hs2 : Real.sqrt (v : ℝ) ^ 2 = (v : ℝ) := Real.sq_sqrt hv'
  simp only [evaluate_live, inRangeCond, decide_eq_true_eq]
  constructor
  · intro h
    have h' : ((t : ℝ) - (m : ℝ)) ^ 2 ≤ 4 * (v : ℝ) := by exact_mod_cast h
    constructor
    · nlinarith
    · nlinarith
  · intro h
    obtain ⟨h1, h2⟩ := h
    have h' : ((t : ℝ) - (m : ℝ)) ^ 2 ≤ 4 * (v : ℝ) := by nlinarith
    exact_mod_cast h'

/-! ### The trailing window, position by position -/

lemma windowSlice_length (temps : List ℚ) (w i : ℕ) (h1 : w ≤ i + 1)
    (h2 : i < temps.length) : (windowSlice temps w i).length = w := by
  unfold windowSlice
  rw [List.length_drop, List.length_take, min_eq_left (by omega)]
  omega

lemma windowSlice_getElem? (temps : List ℚ) (w i j : ℕ) (hj : j < w)
    (h1 : w ≤ i + 1) :
    (windowSlice temps w i)[j]? = temps[i + 1 - w + j]? := by
  unfold windowSlice
  rw [List.getElem?_drop, List.getElem?_take_of_lt (by omega)]

/-! ### The seasonal aggregate, group by group -/

lemma seasonal_statistics_keys (data : List Row) :
    (seasonal_statistics data).map (fun st => (st.city, st.season)) =
      (data.map (fun r => (r.city, r.season))).dedup := by
  unfold seasonal_statistics
  rw [List.map_map]
  have hcomp : ((fun st : SeasonalStat => (st.city, st.season)) ∘ mkSeasonalStat data) = id := by
    funext p
    simp [mkSeasonalStat, Function.comp]
  rw [hcomp, List.map_id]

lemma mem_seasonal_statistics (data : List Row) (st : SeasonalStat)
    (h : st ∈ seasonal_statistics data) :
    st = mkSeasonalStat data (st.city, st.season) := by
  unfold seasonal_statistics at h
  obtain ⟨p, _, rfl⟩ := List.mem_map.mp h
  rfl

/-! ### The seasonal-stat selection of `main` -/

lemma lookupSeasonStat_of_no_match (stats : List SeasonalStat) (c s : String)
    (h : ∀ st ∈ stats, ¬(st.city = c ∧ st.season = s)) :
    lookupSeasonStat stats c s = Except.error LookupError.indexError := by
  unfold lookupSeasonStat
  have hf : stats.filter (fun st => decide (st.city = c ∧ st.season = s)) = [] := by
    rw [List.filter_eq_nil_iff]
    intro st hst
    simp [h st hst]
  rw [hf]
  rfl

/-! ### The rolling columns, case by case -/

lemma rollingMean_of_complete (temps : List ℚ) (w i : ℕ) (h : w ≤ i + 1) :
    rollingMean temps w i = some (listMean (windowSlice temps w i)) := by
  unfold rollingMean
  exact if_pos h

lemma rollingMean_eq_none_iff (temps : List ℚ) (w i : ℕ) :
    rollingMean temps w i = none ↔ i + 1 < w := by
  unfold rollingMean
  by_cases h : w ≤ i + 1
  · rw [if_pos h]
    exact iff_of_false (by simp) (by omega)
  · rw [if_neg h]
    exact iff_of_true rfl (by omega)

lemma rollingVar_of_complete (temps : List ℚ) (w i : ℕ) (h1 : w ≤ i + 1)
    (h2 : 2 ≤ w) :
    rollingVar temps w i = some (besselVar (windowSlice temps w i)) := by
  unfold rollingVar
  exact if_pos ⟨h1, h2⟩

lemma rollingVar_eq_none_iff (temps : List ℚ) (w i : ℕ) (hw : 1 ≤ w) :
    rollingVar temps w i = none ↔ (i + 1 < w ∨ w = 1) := by
  unfold rollingVar
  by_cases h : w ≤ i + 1 ∧ 2 ≤ w
  · rw [if_pos h]
    exact iff_of_false (by simp) (by omega)
  · rw [if_neg h]
    exact iff_of_true rfl (by omega)

lemma rollingVar_some_elim (temps : List ℚ) (w i : ℕ) (v : ℚ)
    (h : rollingVar temps w i = some v) :
    w ≤ i + 1 ∧ 2 ≤ w ∧ v = besselVar (windowSlice temps w i) := by
  unfold rollingVar at h
  by_cases hc : w ≤ i + 1 ∧ 2 ≤ w
  · rw [if_pos hc] at h
    injection h with h
    exact ⟨hc.1, hc.2, h.symm⟩
  · rw [if_neg hc] at h
    cases h

/-- The row-level anomaly test, characterised the way the specification reads:
`true` exactly when both statistics are defined and the temperature lies
strictly outside `mean ± 2·std`. -/
lemma anomalyTest_characterization (t : ℚ) (avgOpt varOpt : Option ℚ)
    (hv0 : ∀ v, varOpt = some v → 0 ≤ v) :
    (anomalyTest t avgOpt varOpt = true ↔
      ∃ m v, avgOpt = some m ∧ varOpt = some v ∧
        anomalyCond (t : ℝ) (m : ℝ) (Real.sqrt (v : ℝ))) := by
  cases avgOpt with
  | none => simp [anomalyTest_none_left]
  | some m =>
    cases varOpt with
    | none => simp [anomalyTest_none_right]
    | some v =>
      rw [anomalyTest_iff_anomalyCond t m v (hv0 v rfl)]
      constructor
      · intro h
        exact ⟨m, v, rfl, rfl, h⟩
      · rintro ⟨m', v', hm, hv, h⟩
        injection hm with hm
        injection hv with hv
        subst hm
        subst hv
        exact h

/-! ### Concrete data used to instantiate the theorems -/

def cityA : String := "A"

def seasonWinter : String := "winter"

def rowA0 : Row := { city := "A", timestamp := 0, season := "winter", temperature := 10 }

def rowA1 : Row := { city := "A", timestamp := 1, season := "summer", temperature := 30 }

def rowB0 : Row := { city := "B", timestamp := 2, season := "winter", temperature := 0 }

def testData : List Row := [rowA0, rowA1, rowB0]

/-- The row at position 0 of the `window = 2` baseline of `testData`:
incomplete window, both rolling columns NaN, not anomalous. -/
def c1row0 : Row :=
  { city := "A", timestamp := 0, season := "winter", temperature := 10,
    moving_avg := none, moving_var := none, anomaly := false }

/-- The row at position 1 of the `window = 2` baseline of `testData`:
window `[10, 30]`, mean `20`, sample variance `200`. -/
def c3row : Row :=
  { city := "A", timestamp := 1, season := "summer", temperature := 30,
    moving_avg := some 20, moving_var := some 200, anomaly := false }

/-- The row at position 0 of the `window = 1` baseline of `testData`: the
mean is defined but the sample std of the single-value window is NaN. -/
def c2row : Row :=
  { city := "A", timestamp := 0, season := "winter", temperature := 10,
    moving_avg := some 10, moving_var := none, anomaly := false }

/-- The reading columns of a row (everything the CSV supplied). -/
def readingFields (r : Row) : String × ℤ × String × ℚ :=
  (r.city, r.timestamp, r.season, r.temperature)

/-! ### The claims -/

/-- C1: for every series with an aligned baseline and every position, the
classifier marks the reading anomalous iff its moving mean and moving std are
defined and the temperature is strictly greater than `mean + 2·std` or
strictly less than `mean - 2·std`; readings exactly on either bound are not
anomalous, and readings in the first `window - 1` positions (undefined
baseline) are never anomalous. -/
theorem C1_classifier_two_sigma_strict (data : List Row) (w i : ℕ) (r : Row)
    (hr : (detect_anomalies (calculate_moving_average data w))[i]? = some r) :
    (r.anomaly = true ↔
      ∃ m v, r.moving_avg = some m ∧ r.moving_var = some v ∧
        anomalyCond (r.temperature : ℝ) (m : ℝ) (Real.sqrt (v : ℝ))) ∧
    (∀ m v, r.moving_avg = some m → r.moving_var = some v →
      ((r.temperature : ℝ) = (m : ℝ) + 2 * Real.sqrt (v : ℝ) ∨
       (r.temperature : ℝ) = (m : ℝ) - 2 * Real.sqrt (v : ℝ)) →
      r.anomaly = false) ∧
    (i + 1 < w → r.anomaly = false) := by
  rw [detect_anomalies_getElem?, calculate_moving_average_getElem?] at hr
  cases hd : data[i]? with
  | none =>
    rw [hd] at hr
    cases hr
  | some r0 =>
    rw [hd] at hr
    simp only [Option.map_some'] at hr
    injection hr with hr
    subst hr
    have ht : r0.temperature = r0.temperature := rfl
    refine ⟨?_, ?_, ?_⟩
    · exact anomalyTest_characterization r0.temperature
        (rollingMean (data.map (fun r => r.temperature)) w i)
        (rollingVar (data.map (fun r => r.temperature)) w i)
        (fun v hv => rollingVar_nonneg _ w i v hv)
    · intro m v hm hvv hb
      dsimp only at hm hvv hb
      have h0 : 0 ≤ v := rollingVar_nonneg _ w i v hvv
      show anomalyTest r0.temperature
        (rollingMean (data.map (fun r => r.temperature)) w i)
        (rollingVar (data.map (fun r => r.temperature)) w i) = false
      rw [hm, hvv]
      cases hA : anomalyTest r0.temperature (some m) (some v) with
      | false => rfl
      | true =>
        exfalso
        have hc := (anomalyTest_iff_anomalyCond r0.temperature m v h0).mp hA
        have hs : (0 : ℝ) ≤ Real.sqrt ((v : ℚ) : ℝ) := Real.sqrt_nonneg _
        unfold anomalyCond at hc
        rcases hc with hc | hc <;> rcases hb with hb | hb <;> linarith
    · intro hlt
      have hm : rollingMean (data.map (fun r => r.temperature)) w i = none :=
        (rollingMean_eq_none_iff _ w i).mpr hlt
      show anomalyTest r0.temperature
        (rollingMean (data.map (fun r => r.temperature)) w i)
        (rollingVar (data.map (fun r => r.temperature)) w i) = false
      rw [hm]
      exact anomalyTest_none_left _ _

/-- Witness for C1 at `testData`, `window = 2`, position 0: the hypotheses
hold and the early-window row is not anomalous. -/
theorem C1_classifier_two_sigma_strict_witness :
    ((detect_anomalies (calculate_moving_average testData 2))[0]? = some c1row0 ∧
      0 + 1 < 2) ∧
    c1row0.anomaly = false :=
  ⟨⟨by decide, by decide⟩,
   (C1_classifier_two_sigma_strict testData 2 0 c1row0 (by decide)).2.2
     (by decide)⟩

/-- Evaluation: the `window = 1` baseline of `testData` at position 0. -/
lemma eval_cma_testData_1_0 : (calculate_moving_average testData 1)[0]? = some c2row := by
  rw [calculate_moving_average_getElem?]
  simp only [testData, rowA0, rowA1, rowB0, List.map_cons, List.map_nil,
    List.getElem?_cons_zero, Option.map_some']
  rw [rollingMean_of_complete _ 1 0 (by omega)]
  norm_num [rollingVar, windowSlice, listMean, c2row]

/-- Evaluation: the `window = 2` baseline of `testData` at position 1. -/
lemma eval_cma_testData_2_1 : (calculate_moving_average testData 2)[1]? = some c3row := by
  rw [calculate_moving_average_getElem?]
  simp only [testData, rowA0, rowA1, rowB0, List.map_cons, List.map_nil,
    List.getElem?_cons_succ, List.getElem?_cons_zero, Option.map_some']
  rw [rollingMean_of_complete _ 2 1 (by omega), rollingVar_of_complete _ 2 1 (by omega) (by omega)]
  norm_num [windowSlice, listMean, besselVar, c3row]

/-- C2 counterexample: the claim says that for `window = 1` no point is
undefined, but on the one-row series the single point's moving std is NaN
(`none`): pandas `rolling(window=1).std()` has a one-sample window and
`ddof = 1`. -/
theorem C2_counterexample :
    ¬ ∀ p ∈ calculate_moving_average [rowA0] 1, p.moving_var ≠ none := by
  decide

/-- C2 (amended): `calculate_moving_average` returns exactly `n` points in
input order with the reading columns untouched; the moving mean is undefined
exactly at the first `w - 1` positions; the moving std is undefined exactly
at the first `w - 1` positions and additionally — for `w = 1` — at every
position, because a one-sample window has no sample std; so for `w = 1` no
point has an undefined moving mean but every point has an undefined moving
std. -/
theorem C2_baseline_shape (data : List Row) (w : ℕ) (hw : 1 ≤ w) :
    (calculate_moving_average data w).length = data.length ∧
    (∀ i : ℕ, ((calculate_moving_average data w)[i]?).map readingFields =
      (data[i]?).map readingFields) ∧
    (∀ i r, (calculate_moving_average data w)[i]? = some r →
      ((r.moving_avg = none ↔ i + 1 < w) ∧
       (r.moving_var = none ↔ (i + 1 < w ∨ w = 1)))) := by
  refine ⟨calculate_moving_average_length data w, ?_, ?_⟩
  · intro i
    rw [calculate_moving_average_getElem?]
    cases data[i]? <;> rfl
  · intro i r hr
    rw [calculate_moving_average_getElem?] at hr
    cases hd : data[i]? with
    | none =>
      rw [hd] at hr
      cases hr
    | some r0 =>
      rw [hd] at hr
      simp only [Option.map_some'] at hr
      injection hr with hr
      subst hr
      constructor
      · exact rollingMean_eq_none_iff _ w i
      · exact rollingVar_eq_none_iff _ w i hw

/-- Witness for C2 (amended) at `testData`, `window = 1`, position 0: the
moving mean is defined, the moving std is not. -/
theorem C2_baseline_shape_witness :
    ((1 : ℕ) ≤ 1 ∧ (calculate_moving_average testData 1)[0]? = some c2row) ∧
    ((c2row.moving_avg = none ↔ 0 + 1 < 1) ∧
     (c2row.moving_var = none ↔ (0 + 1 < 1 ∨ 1 = 1))) :=
  ⟨⟨by decide, eval_cma_testData_1_0⟩,
   (C2_baseline_shape testData 1 (by decide)).2.2 0 c2row eval_cma_testData_1_0⟩

/-- C3: at every position `i ≥ window - 1` the baseline's moving mean is the
arithmetic mean, and its moving std the Bessel-corrected sample standard
deviation (divisor `n - 1`, hence defined only for `window ≥ 2`), of the
temperatures at positions `i - window + 1 .. i`: the window slice has length
`window` and its `j`-th element is the temperature at position
`i + 1 - window + j`. -/
theorem C3_baseline_values (data : List Row) (w i : ℕ) (hw : 1 ≤ w)
    (hi : w - 1 ≤ i) (r : Row)
    (hr : (calculate_moving_average data w)[i]? = some r) :
    r.moving_avg =
      some (listMean (windowSlice (data.map (fun r => r.temperature)) w i)) ∧
    (2 ≤ w → r.moving_var =
      some (besselVar (windowSlice (data.map (fun r => r.temperature)) w i))) ∧
    (windowSlice (data.map (fun r => r.temperature)) w i).length = w ∧
    (∀ j, j < w →
      (windowSlice (data.map (fun r => r.temperature)) w i)[j]? =
        (data.map (fun r => r.temperature))[i + 1 - w + j]?) ∧
    (∀ v, r.moving_var = some v →
      Real.sqrt (v : ℝ) =
        Real.sqrt ((besselVar (windowSlice (data.map (fun r => r.temperature)) w i) : ℚ) : ℝ)) := by
  have hcomplete : w ≤ i + 1 := by omega
  have hilen : i < data.length := by
    have := List.getElem?_eq_some_iff.mp hr
    obtain ⟨h, _⟩ := this
    rwa [calculate_moving_average_length] at h
  have hitemps : i < (data.map (fun r => r.temperature)).length := by
    rwa [List.length_map]
  rw [calculate_moving_average_getElem?] at hr
  cases hd : data[i]? with
  | none =>
    rw [hd] at hr
    cases hr
  | some r0 =>
    rw [hd] at hr
    simp only [Option.map_some'] at hr
    injection hr with hr
    subst hr
    refine ⟨?_, ?_, ?_, ?_, ?_⟩
    · exact rollingMean_of_complete _ w i hcomplete
    · intro h2
      exact rollingVar_of_complete _ w i hcomplete h2
    · exact windowSlice_length _ w i hcomplete hitemps
    · intro j hj
      exact windowSlice_getElem? _ w i j hj hcomplete
    · intro v hv
      dsimp only at hv
      obtain ⟨_, _, hveq⟩ := rollingVar_some_elim _ w i v hv
      rw [hveq]

/-- Witness for C3 at `testData`, `window = 2`, position 1: window `[10, 30]`,
mean `20`, sample variance `200`. -/
theorem C3_baseline_values_witness :
    ((1 : ℕ) ≤ 2 ∧ 2 - 1 ≤ 1 ∧
      (calculate_moving_average testData 2)[1]? = some c3row) ∧
    c3row.moving_avg =
      some (listMean (windowSlice (testData.map (fun r => r.temperature)) 2 1)) ∧
    c3row.moving_var =
      some (besselVar (windowSlice (testData.map (fun r => r.temperature)) 2 1)) ∧
    (windowSlice (testData.map (fun r => r.temperature)) 2 1).length = 2 ∧
    (windowSlice (testData.map (fun r => r.temperature)) 2 1)[0]? =
      (testData.map (fun r => r.temperature))[0]? ∧
    Real.sqrt ((200 : ℚ) : ℝ) =
      Real.sqrt ((besselVar (windowSlice (testData.map (fun r => r.temperature)) 2 1) : ℚ) : ℝ) := by
  have h := C3_baseline_values testData 2 1 (by decide) (by decide) c3row
    eval_cma_testData_2_1
  exact ⟨⟨by decide, by decide, eval_cma_testData_2_1⟩, h.1, h.2.1 (by decide), h.2.2.1,
    h.2.2.2.1 0 (by decide), h.2.2.2.2 200 (by decide)⟩

/-- C4: on a defined seasonal std, `in_range` is `true` iff
`mean - 2·std ≤ reading ≤ mean + 2·std`, inclusive on both ends; a reading
equal to the stat's mean is always in range. -/
theorem C4_live_range_inclusive (t m v : ℚ) (hv : 0 ≤ v) :
    (evaluate_live t m (some v) = true ↔
      inRangeCond (t : ℝ) (m : ℝ) (Real.sqrt (v : ℝ))) ∧
    evaluate_live m m (some v) = true := by
  refine ⟨evaluate_live_iff_inRangeCond t m v hv, ?_⟩
  simp only [evaluate_live, decide_eq_true_eq, sub_self]
  nlinarith

/-- Witness for C4 at the spec's scenario `mean 15`, `std 3` (variance 9),
reading `21`. -/
theorem C4_live_range_inclusive_witness :
    (0 ≤ (9 : ℚ)) ∧
    ((evaluate_live 21 15 (some 9) = true ↔
      inRangeCond ((21 : ℚ) : ℝ) ((15 : ℚ) : ℝ) (Real.sqrt ((9 : ℚ) : ℝ))) ∧
     evaluate_live 15 15 (some 9) = true) :=
  ⟨by norm_num, C4_live_range_inclusive 21 15 9 (by norm_num)⟩

/-- C5: the seasonal aggregate has exactly one entry per distinct
`(city, season)` pair of the whole dataset, and each entry's mean is the
arithmetic mean of its group's temperatures drawn from the entire dataset. -/
theorem C5_seasonal_aggregate (data : List Row) :
    ((seasonal_statistics data).map (fun st => (st.city, st.season))).Nodup ∧
    (∀ c s : String,
      ((c, s) ∈ (seasonal_statistics data).map (fun st => (st.city, st.season))) ↔
        ∃ r ∈ data, r.city = c ∧ r.season = s) ∧
    ∀ st ∈ seasonal_statistics data,
      st.mean = listMean (groupTemps data st.city st.season) := by
  refine ⟨?_, ?_, ?_⟩
  · rw [seasonal_statistics_keys]
    exact List.nodup_dedup _
  · intro c s
    rw [seasonal_statistics_keys, List.mem_dedup, List.mem_map]
    constructor
    · rintro ⟨r, hr, heq⟩
      rw [Prod.mk.injEq] at heq
      exact ⟨r, hr, heq.1, heq.2⟩
    · rintro ⟨r, hr, h1, h2⟩
      exact ⟨r, hr, by rw [h1, h2]⟩
  · intro st hst
    exact congrArg SeasonalStat.mean (mem_seasonal_statistics data st hst)

/-- Witness for C5 at `testData`: the pair `("A", "winter")` is a key of the
aggregate because `rowA0` carries it. -/
theorem C5_seasonal_aggregate_witness :
    ((cityA, seasonWinter) ∈
      (seasonal_statistics testData).map (fun st => (st.city, st.season))) ∧
    (rowA0 ∈ testData ∧ rowA0.city = cityA ∧ rowA0.season = seasonWinter) :=
  ⟨((C5_seasonal_aggregate testData).2.1 cityA seasonWinter).mpr
      ⟨rowA0, by decide, rfl, rfl⟩,
   by decide, rfl, rfl⟩

/-- C6: `main` only distinguishes `None` from everything else; the structured
401 `{code, message}` dictionary returned on an invalid API key passes the
`is not None` guard and reaches the bound comparison, which raises
`TypeError` (an attempted assessment) instead of producing no assessment;
only a genuine `None` yields no assessment. -/
theorem C6_error_object_passes_guard :
    fetch_temperature_sync 401 0 = FetchResult.errorObj 401 invalidKeyMessage ∧
    monitorStep (fetch_temperature_sync 401 0) 15 (some 9) =
      some Assessment.typeError ∧
    monitorStep (fetch_temperature_sync 500 0) 15 (some 9) = none :=
  ⟨rfl, rfl, rfl⟩

/-- C7 counterexample: on a `(city, season)` pair with no aggregate entry the
selection is empty and element access fails with the untyped `IndexError`,
which is not the typed `MissingSeasonalStat` the claim promises. -/
theorem C7_counterexample :
    lookupSeasonStat [] cityA seasonWinter = Except.error LookupError.indexError ∧
    LookupError.indexError ≠ LookupError.missingSeasonalStat :=
  ⟨rfl, by decide⟩

/-- C7 (amended): for every `(city, season)` pair with no entry in the
aggregate, the live evaluation aborts with the untyped `IndexError` of
`.values[0]` on an empty selection — not with a typed `MissingSeasonalStat`;
the error is still not an `ok` (in-range / out-of-range) result. -/
theorem C7_missing_stat_untyped (stats : List SeasonalStat) (c s : String)
    (h : ∀ st ∈ stats, ¬(st.city = c ∧ st.season = s)) :
    lookupSeasonStat stats c s = Except.error LookupError.indexError ∧
    ∀ st : SeasonalStat,
      (Except.error LookupError.indexError : Except LookupError SeasonalStat) ≠
        Except.ok st :=
  ⟨lookupSeasonStat_of_no_match stats c s h, fun _ => by simp⟩

/-- Witness for C7 (amended) at the empty aggregate. -/
theorem C7_missing_stat_untyped_witness :
    (∀ st ∈ ([] : List SeasonalStat), ¬(st.city = cityA ∧ st.season = seasonWinter)) ∧
    lookupSeasonStat [] cityA seasonWinter = Except.error LookupError.indexError :=
  ⟨by simp, (C7_missing_stat_untyped [] cityA seasonWinter (by simp)).1⟩

/-- C8: `calculate_moving_average` leaves the series' readings and
temperatures unchanged (same length, same reading columns position by
position) and applying it a second time to its own output yields the
identical result. -/
theorem C8_pure_idempotent (data : List Row) (w : ℕ) :
    (calculate_moving_average data w).length = data.length ∧
    (∀ i : ℕ, ((calculate_moving_average data w)[i]?).map readingFields =
      (data[i]?).map readingFields) ∧
    calculate_moving_average (calculate_moving_average data w) w =
      calculate_moving_average data w := by
  refine ⟨calculate_moving_average_length data w, ?_, ?_⟩
  · intro i
    rw [calculate_moving_average_getElem?]
    cases data[i]? <;> rfl
  · apply List.ext_getElem?
    intro n
    rw [calculate_moving_average_getElem? (calculate_moving_average data w) w n,
        calculate_moving_average_map_temperature,
        calculate_moving_average_getElem? data w n]
    cases data[n]? <;> rfl

/-- The `("A", "winter")` group of `testData` has the single member `rowA0`:
its aggregate row has mean `10` and NaN std. -/
def statAW : SeasonalStat :=
  { city := cityA, season := seasonWinter, mean := 10, var := none }

/-- Evaluation: the `("A", "winter")` group temperatures of `testData`. -/
lemma eval_groupAW : groupTemps testData cityA seasonWinter = [10] := by
  simp [groupTemps, testData, rowA0, rowA1, rowB0, cityA, seasonWinter]

/-- Evaluation: `statAW` is an entry of `testData`'s seasonal aggregate. -/
lemma statAW_mem : statAW ∈ seasonal_statistics testData := by
  unfold seasonal_statistics
  apply List.mem_map.mpr
  refine ⟨(cityA, seasonWinter), ?_, ?_⟩
  · rw [List.mem_dedup]
    simp [testData, rowA0, rowA1, rowB0, cityA, seasonWinter]
  · show mkSeasonalStat testData (cityA, seasonWinter) = statAW
    have hg : groupTemps testData cityA seasonWinter = [10] := eval_groupAW
    norm_num [mkSeasonalStat, statAW, hg, listMean]

/-- C9: a `(city, season)` group with exactly one reading gets an undefined
(NaN) standard deviation — not `std = 0` and not a typed error — and a live
evaluation against such a stat always reports the reading outside the normal
range, because both bound comparisons against the NaN bounds are `False`. -/
theorem C9_single_member_group (data : List Row) (c s : String)
    (h1 : (groupTemps data c s).length = 1) :
    ∀ st ∈ seasonal_statistics data, st.city = c → st.season = s →
      st.var = none ∧
      ∀ t : ℚ, evaluate_live t st.mean st.var = false ∧
        monitorStep (FetchResult.temp t) st.mean st.var =
          some Assessment.outOfRange := by
  intro st hst hc hs
  subst hc
  subst hs
  have he := mem_seasonal_statistics data st hst
  have hv : st.var = none := by
    have hlen : ¬ 2 ≤ (groupTemps data st.city st.season).length := by omega
    have h2 : st.var = (mkSeasonalStat data (st.city, st.season)).var :=
      congrArg SeasonalStat.var he
    rw [h2]
    exact if_neg hlen
  refine ⟨hv, fun t => ?_⟩
  rw [hv]
  exact ⟨rfl, rfl⟩

/-- Witness for C9 at `testData` and its single-member `("A", "winter")`
group. -/
theorem C9_single_member_group_witness :
    ((groupTemps testData cityA seasonWinter).length = 1 ∧
      statAW ∈ seasonal_statistics testData ∧
      statAW.city = cityA ∧ statAW.season = seasonWinter) ∧
    (statAW.var = none ∧
      (evaluate_live 42 statAW.mean statAW.var = false ∧
       monitorStep (FetchResult.temp 42) statAW.mean statAW.var =
         some Assessment.outOfRange)) := by
  have h := C9_single_member_group testData cityA seasonWinter
    (by rw [eval_groupAW]; rfl) statAW statAW_mem rfl rfl
  exact ⟨⟨by rw [eval_groupAW]; rfl, statAW_mem, rfl, rfl⟩, h.1, h.2 42⟩

/-- C10: the season used for the live comparison is the season of the first
row (position 0) of the selected city's slice — the earliest record when the
slice is ordered by timestamp ascending — and in general not the most recent
one, as `testData` shows. -/
theorem C10_season_from_first_row (data : List Row) (c : String) (r : Row)
    (hr : (selectCity data c).head? = some r) :
    currentSeason data c = some r.season ∧
    (List.Pairwise (fun a b : Row => a.timestamp ≤ b.timestamp) (selectCity data c) →
      ∀ q ∈ selectCity data c, r.timestamp ≤ q.timestamp) ∧
    currentSeason testData cityA ≠
      ((selectCity testData cityA).getLast?).map (fun x => x.season) := by
  refine ⟨?_, ?_, ?_⟩
  · unfold currentSeason
    rw [hr]
    rfl
  · intro hp q hq
    obtain ⟨ys, hys⟩ := List.head?_eq_some_iff.mp hr
    rw [hys] at hp hq
    rw [List.pairwise_cons] at hp
    rcases List.mem_cons.mp hq with h | h
    · subst h
      exact le_refl _
    · exact hp.1 q h
  · decide

/-- Witness for C10 at `testData`, city `"A"`: the chosen season is
`rowA0`'s, and `rowA0` is the earliest record of the slice. -/
theorem C10_season_from_first_row_witness :
    ((selectCity testData cityA).head? = some rowA0) ∧
    currentSeason testData cityA = some rowA0.season ∧
    rowA0.timestamp ≤ rowA1.timestamp := by
  have h := C10_season_from_first_row testData cityA rowA0 (by decide)
  exact ⟨by decide, h.1, h.2.1 (by decide) rowA1 (by decide)⟩

end WeatherApp
